import Mathlib

/-!
Verification of the `RealtimeAPI` connection client of this repository.

The repository holds two near-identical copies of the class:
`src/lib/api.js` (embedded at top level below) and `src/unnamed/part_000`
(embedded in namespace `Part000`). The class wraps a single WebSocket
channel: `connect` builds a channel and wires lifecycle callbacks,
`disconnect` closes and releases the owned channel (identity-checked when a
handle is passed), `receive` republishes inbound events through the
dispatcher, and `send` builds an event envelope, dispatches it locally and
writes it to the channel.

The dispatcher (`RealtimeEventHandler.dispatch`) and the WebSocket are
external collaborators here: a call into them is recorded as an effect in
an explicit effect trace.  State mutation is modelled by explicit state
passing; the asynchronous callbacks (`open`, `error`, `close`, `message`)
are modelled as environment-driven steps of a labelled transition system.
-/

/-- A JavaScript value, as far as the client code inspects one:
`undefined`, `null`, booleans, numbers, strings, and plain objects as
ordered key/value lists (JS objects keep insertion order of string keys). -/
inductive Value where
  | vundefined : Value
  | vnull : Value
  | vbool : Bool → Value
  | vnum : Int → Value
  | vstr : String → Value
  | vobj : List (String × Value) → Value
deriving Repr

/-- JS truthiness: `undefined`, `null`, `false`, `0` and `""` are falsy,
everything else (objects included) is truthy. -/
def jsTruthy : Value → Bool
  | .vundefined => false
  | .vnull => false
  | .vbool b => b
  | .vnum n => n != 0
  | .vstr s => s ≠ ""
  | .vobj _ => true

/-- JS `typeof v === 'object'`: true for plain objects and for `null`. -/
def jsTypeofIsObject : Value → Bool
  | .vnull => true
  | .vobj _ => true
  | _ => false

/-- The fields of an object value (`{...v}` spreads nothing for a non-object). -/
def objFields : Value → List (String × Value)
  | .vobj fs => fs
  | _ => []

/-- Property read `v[k]`: the value stored under `k`, `undefined` otherwise. -/
def jsGet (v : Value) (k : String) : Value :=
  match v with
  | .vobj fs => ((fs.find? (fun p => p.1 = k)).map Prod.snd).getD .vundefined
  | _ => .vundefined

/-- Property assignment semantics of an object literal / spread: writing `k`
overwrites an existing entry in place (keys keep first-occurrence order),
otherwise appends. -/
def objSet (fs : List (String × Value)) (k : String) (v : Value) :
    List (String × Value) :=
  if fs.any (fun p => p.1 = k) then
    fs.map (fun p => if p.1 = k then (k, v) else p)
  else
    fs ++ [(k, v)]

/-- Spread semantics of `{ ...base fields..., ...data }`: the spread assigns every own key of
`data` in order on top of the base fields. -/
def spreadFields (base extra : List (String × Value)) :
    List (String × Value) :=
  extra.foldl (fun acc kv => objSet acc kv.1 kv.2) base

/-- String coercion used by template literals (`` `server.${eventName}` ``). -/
def jsStringCoerce : Value → String
  | .vundefined => "undefined"
  | .vnull => "null"
  | .vbool b => if b then "true" else "false"
  | .vnum n => toString n
  | .vstr s => s
  | .vobj _ => "[object Object]"

/-- Escape a character for a JSON string literal (`JSON.stringify`). -/
def jsonEscapeChar (c : Char) : String :=
  if c = '"' then "\\\"" else if c = '\\' then "\\\\" else String.singleton c

/-- Escape a string for a JSON string literal. -/
def jsonEscape (s : String) : String :=
  String.join (s.toList.map jsonEscapeChar)

mutual
/-- Model of `JSON.stringify`: `none` for `undefined` (which stringifies to nothing). -/
def serializeValue : Value → Option String
  | .vundefined => none
  | .vnull => some "null"
  | .vbool b => some (if b then "true" else "false")
  | .vnum n => some (toString n)
  | .vstr s => some ("\"" ++ jsonEscape s ++ "\"")
  | .vobj fs => some ("\x7b" ++ String.intercalate "," (serializeFields fs) ++ "\x7d")

/-- Serialize the fields of an object; fields with `undefined` values are
dropped, as `JSON.stringify` does. -/
def serializeFields : List (String × Value) → List String
  | [] => []
  | (k, v) :: rest =>
    match serializeValue v with
    | none => serializeFields rest
    | some s => ("\"" ++ jsonEscape k ++ "\":" ++ s) :: serializeFields rest
end

/-- Model of `JSON.stringify` at the top level of `ws.send`; the argument there is
always an object literal, so the `undefined` case cannot occur. -/
def serializeTop (v : Value) : String :=
  (serializeValue v).getD "undefined"

/-- The error kinds the client raises (`throw new Error(...)` / promise
rejection), with the exact message strings of the source. -/
inductive ApiError where
  | alreadyConnected : ApiError
  | connectFailed : ApiError
  | notConnected : ApiError
  | invalidPayload : ApiError
deriving Repr, DecidableEq

/-- The message string of each thrown `Error`, as written in the source. -/
def errorMessage : ApiError → String
  | .alreadyConnected => "Already connected"
  | .connectFailed => "Could not connect"
  | .notConnected => "RealtimeAPI is not connected"
  | .invalidPayload => "data must be an object"

/-- An observable effect of a method or callback: a `console.log` line, a
call into `RealtimeEventHandler.dispatch`, a `ws.send` of serialized text,
or a `ws.close()` on channel `c`. -/
inductive Eff where
  | logEff : Eff
  | dispatchEff : String → Value → Eff
  | writeEff : String → Eff
  | closeEff : Nat → Eff
deriving Repr

/-- Whether an effect is a dispatcher call. -/
def isDispatchEff : Eff → Bool
  | .dispatchEff _ _ => true
  | _ => false

/-- Whether an effect is a channel write. -/
def isWriteEff : Eff → Bool
  | .writeEff _ => true
  | _ => false

/-- The listener wiring and lifecycle of one WebSocket created by
`connect()`.  `msgHandler`: the inbound-message listener (attached at
creation, never removed).  `preErrorHandler`: the `connectionErrorHandler`
(attached at creation, removed in the `open` handler).  `openPending`: the
socket has not yet delivered its one `open` event.  `postHandlers`: the
post-open `error` and `close` handlers (attached in the `open` handler).
`closed`: the client has called `ws.close()` on it. -/
structure ChannelState where
  msgHandler : Bool
  preErrorHandler : Bool
  openPending : Bool
  postHandlers : Bool
  closed : Bool
deriving Repr, DecidableEq

/-- The channel state right after `new WebSocket(fullUrl)` plus the
listener registrations `connect()` performs synchronously. -/
def freshChannel : ChannelState :=
  ⟨true, true, true, false, false⟩

/-- The state of one `connect()` call's returned promise. -/
inductive PromiseState where
  | pending : PromiseState
  | resolved : PromiseState
  | rejected : PromiseState
deriving Repr, DecidableEq

/-- The state of a `RealtimeAPI` instance.  `ws` is the owned channel
(`this.ws`), holding the index of a channel in `channels`.  `channels` and
`promises` record, per `connect()` call in order, the created WebSocket and
the promise that call returned.  `idCounter` backs the modelled
`generateId` collaborator.  `debug` is the constructor flag. -/
structure ClientState where
  ws : Option Nat
  channels : List ChannelState
  promises : List PromiseState
  idCounter : Nat
  debug : Bool
deriving Repr, DecidableEq

/-- Constructor `new RealtimeAPI({debug})`: no channel owned, no channel created yet. -/
def mkClient (debug : Bool) : ClientState :=
  ⟨none, [], [], 0, debug⟩

/-- The result of one method call: its return value or thrown error, the
instance state afterwards, and the effects emitted, in order. -/
structure MRes (α : Type) where
  result : Except ApiError α
  state : ClientState
  effects : List Eff
deriving Repr

/-- Method `isConnected()`: `!!this.ws`. -/
def isConnected (s : ClientState) : Bool :=
  s.ws.isSome

/-- Method `log(...args)`: always returns `true`; writes to the console only when
`debug` is set, recorded as a `logEff`. -/
def logEffects (s : ClientState) : List Eff :=
  if s.debug then [Eff.logEff] else []

/-- Modelled from the spec: `RealtimeUtils.generateId(prefix)` lives in
`./utils.js`, which is not part of the sources; the spec treats it as an
opaque collaborator returning a fresh `prefix + random` string per call
("generated fresh per send using a collision-resistant, human-debuggable
prefix scheme (e.g. evt_<random>)").  Freshness is modelled by a per-client
counter appended to the prefix. -/
def generateId (pfx : String) (counter : Nat) : String :=
  pfx ++ toString counter

/-- Method `connect()`, synchronous part: throws `Already connected` if a channel
is owned (and creates nothing); otherwise creates a fresh channel, attaches
its message/open/error listeners, and returns the index of the new channel
and of the pending promise the call returned.  The promise settles later,
in the `open` / pre-open `error` callbacks. -/
def connect (s : ClientState) : MRes Nat :=
  if isConnected s then
    ⟨.error .alreadyConnected, s, []⟩
  else
    ⟨.ok s.channels.length,
      { s with
        channels := s.channels ++ [freshChannel],
        promises := s.promises ++ [.pending] },
      []⟩

/-- Replace channel `c`'s state. -/
def setChannel (s : ClientState) (c : Nat) (ch : ChannelState) : ClientState :=
  { s with channels := s.channels.set c ch }

/-- Mark channel `c` as closed by the client (`ws.close()`). -/
def markClosed (s : ClientState) (c : Nat) : ClientState :=
  match s.channels.get? c with
  | some ch => setChannel s c { ch with closed := true }
  | none => s

/-- Settle promise `c` as resolved if it is still pending (`resolve(true)`;
settling an already-settled promise is a no-op in JS). -/
def resolvePromise (s : ClientState) (c : Nat) : ClientState :=
  if s.promises.get? c = some .pending then
    { s with promises := s.promises.set c .resolved }
  else s

/-- Settle promise `c` as rejected if it is still pending (`reject(...)`). -/
def rejectPromise (s : ClientState) (c : Nat) : ClientState :=
  if s.promises.get? c = some .pending then
    { s with promises := s.promises.set c .rejected }
  else s

/-- Method `disconnect(ws?)`: `if (!ws || this.ws === ws) { this.ws &&
this.ws.close(); this.ws = null; return true }` — otherwise falls off the
end, returning `undefined` (`Option.none` here) without touching anything. -/
def disconnect (s : ClientState) (h : Option Nat) : MRes (Option Bool) :=
  if h = none ∨ s.ws = h then
    match s.ws with
    | some c => ⟨.ok (some true), { markClosed s c with ws := none }, [.closeEff c]⟩
    | none => ⟨.ok (some true), { s with ws := none }, []⟩
  else
    ⟨.ok none, s, []⟩

/-- Method `receive(eventName, event)`: logs, dispatches `server.<eventName>` then
`server.*`, both with the payload unmodified, and returns `true`. -/
def receive (s : ClientState) (eventName : String) (event : Value) :
    MRes Bool :=
  ⟨.ok true, s,
    logEffects s ++
      [.dispatchEff ("server." ++ eventName) event,
       .dispatchEff "server.*" event]⟩

/-- Method `send(eventName, data)`: throws `RealtimeAPI is not connected` if no
channel is owned; replaces falsy `data` by `{}` (`data = data || {}`);
throws `data must be an object` if `typeof data !== 'object'`; builds the
envelope `{event_id: generateId('evt_'), type: eventName, ...data}`;
dispatches `client.<eventName>` then `client.*`; logs; writes the
serialized envelope to the channel; returns `true`. -/
def send (s : ClientState) (eventName : String) (data : Value) : MRes Bool :=
  if ¬ isConnected s then
    ⟨.error .notConnected, s, []⟩
  else
    let data1 := if jsTruthy data then data else .vobj []
    if ¬ jsTypeofIsObject data1 then
      ⟨.error .invalidPayload, s, []⟩
    else
      let event := Value.vobj (spreadFields
        [("event_id", .vstr (generateId "evt_" s.idCounter)),
         ("type", .vstr eventName)]
        (objFields data1))
      let s1 := { s with idCounter := s.idCounter + 1 }
      ⟨.ok true, s1,
        [.dispatchEff ("client." ++ eventName) event,
         .dispatchEff "client.*" event] ++
        logEffects s1 ++
        [.writeEff (serializeTop event)]⟩

/-- The body of the `open` listener wired by `connect()` onto channel `c`:
logs, removes `connectionErrorHandler`, attaches the post-open `error` and
`close` handlers, sets `this.ws = ws`, and resolves the connect promise
with `true`.  Consumes the socket's single `open` occurrence. -/
def openHandlerRun (s : ClientState) (c : Nat) (ch : ChannelState) :
    ClientState × List Eff :=
  let s1 := setChannel s c
    { ch with preErrorHandler := false, openPending := false, postHandlers := true }
  let s2 := { s1 with ws := some c }
  (resolvePromise s2 c, logEffects s)

/-- The body of `connectionErrorHandler` (pre-open `error`) for channel
`c`: `this.disconnect(ws)` then rejects the connect promise. -/
def connectionErrorHandlerRun (s : ClientState) (c : Nat) :
    ClientState × List Eff :=
  let d := disconnect s (some c)
  (rejectPromise d.state c, d.effects)

/-- The body of the post-open `error` listener for channel `c`:
`this.disconnect(ws)`, a log line, then `this.dispatch('close', {error:
true})`. -/
def postErrorHandlerRun (s : ClientState) (c : Nat) :
    ClientState × List Eff :=
  let d := disconnect s (some c)
  (d.state,
    d.effects ++ logEffects d.state ++
      [.dispatchEff "close" (.vobj [("error", .vbool true)])])

/-- The body of the post-open `close` listener for channel `c`:
`this.disconnect(ws)`, a log line, then `this.dispatch('close', {error:
false})`. -/
def closeHandlerRun (s : ClientState) (c : Nat) :
    ClientState × List Eff :=
  let d := disconnect s (some c)
  (d.state,
    d.effects ++ logEffects d.state ++
      [.dispatchEff "close" (.vobj [("error", .vbool false)])])

/-- The body of the `message` listener for channel `c`: decodes the text to
a mapping `message` and calls `this.receive(message.type, message)`. -/
def messageHandlerRun (s : ClientState) (msg : Value) :
    ClientState × List Eff :=
  let r := receive s (jsStringCoerce (jsGet msg "type")) msg
  (r.state, r.effects)

/-- One step of the client: either a caller-invoked method or a channel
lifecycle callback delivered by the environment.  Callback steps on a
channel whose corresponding listener is not attached do nothing (the event
is dropped by the socket, not by the client). -/
inductive Act where
  | opConnect : Act
  | opDisconnect : Option Nat → Act
  | opSend : String → Value → Act
  | opReceive : String → Value → Act
  | evOpen : Nat → Act
  | evError : Nat → Act
  | evClose : Nat → Act
  | evMessage : Nat → Value → Act

/-- The transition function of the labelled system: run one act, returning
the next state and the emitted effects.  Method results are dropped here;
the per-method theorems use the methods directly. -/
def step (s : ClientState) (a : Act) : ClientState × List Eff :=
  match a with
  | .opConnect => let r := connect s; (r.state, r.effects)
  | .opDisconnect h => let r := disconnect s h; (r.state, r.effects)
  | .opSend n d => let r := send s n d; (r.state, r.effects)
  | .opReceive n p => let r := receive s n p; (r.state, r.effects)
  | .evOpen c =>
    match s.channels.get? c with
    | some ch =>
      if ch.openPending && !ch.closed then openHandlerRun s c ch else (s, [])
    | none => (s, [])
  | .evError c =>
    match s.channels.get? c with
    | some ch =>
      if ch.preErrorHandler then connectionErrorHandlerRun s c
      else if ch.postHandlers then postErrorHandlerRun s c
      else (s, [])
    | none => (s, [])
  | .evClose c =>
    match s.channels.get? c with
    | some ch => if ch.postHandlers then closeHandlerRun s c else (s, [])
    | none => (s, [])
  | .evMessage c msg =>
    match s.channels.get? c with
    | some ch => if ch.msgHandler then messageHandlerRun s msg else (s, [])
    | none => (s, [])

/-- Run a sequence of acts from a state, keeping only the state. -/
def runFrom (s : ClientState) : List Act → ClientState
  | [] => s
  | a :: rest => runFrom (step s a).1 rest

/-- Run a sequence of acts on a fresh non-debug client. -/
def run (acts : List Act) : ClientState :=
  runFrom (mkClient false) acts

/-- Does the list element at channel `c` exist with this state? Convenience
for reading the channel table. -/
def channelAt (s : ClientState) (c : Nat) : Option ChannelState :=
  s.channels.get? c

/-- Lookup in a field list, the way `find?` backs `jsGet`. -/
def fieldsGet (fs : List (String × Value)) (k : String) : Option Value :=
  (fs.find? (fun p => p.1 = k)).map Prod.snd

theorem jsGet_vobj (fs : List (String × Value)) (k : String) :
    jsGet (.vobj fs) k = (fieldsGet fs k).getD .vundefined := rfl

theorem rejectPromise_ws (s : ClientState) (c : Nat) :
    (rejectPromise s c).ws = s.ws := by
  unfold rejectPromise; split <;> rfl

theorem rejectPromise_channels (s : ClientState) (c : Nat) :
    (rejectPromise s c).channels = s.channels := by
  unfold rejectPromise; split <;> rfl

theorem resolvePromise_ws (s : ClientState) (c : Nat) :
    (resolvePromise s c).ws = s.ws := by
  unfold resolvePromise; split <;> rfl

/-- Helper: `send` on a client that owns no channel throws
`RealtimeAPI is not connected`, leaving state and effects empty. -/
theorem send_of_not_connected (s : ClientState) (n : String) (d : Value)
    (h : isConnected s = false) :
    send s n d = ⟨.error .notConnected, s, []⟩ := by
  unfold send
  simp [h]

/-- Helper: `disconnect` with a handle that is neither absent nor the owned
one is a silent no-op returning `undefined`. -/
theorem disconnect_mismatch (s : ClientState) (c : Nat)
    (h : s.ws ≠ some c) :
    disconnect s (some c) = ⟨.ok none, s, []⟩ := by
  unfold disconnect
  simp [h]

/-- Helper: a disconnected client stays mismatched with every handle. -/
theorem ws_none_ne_some (s : ClientState) (c : Nat) (hws : s.ws = none) :
    s.ws ≠ some c := by
  simp [hws]

/-- Helper: any act other than a channel `open` callback leaves a
disconnected client disconnected. -/
theorem step_ws_none (s : ClientState) (a : Act) (hws : s.ws = none)
    (hno : ∀ c, a ≠ Act.evOpen c) : (step s a).1.ws = none := by
  have hcf : isConnected s = false := by simp [isConnected, hws]
  cases a with
  | opConnect =>
    show (connect s).state.ws = none
    simp [connect, hcf, hws]
  | opDisconnect h =>
    show (disconnect s h).state.ws = none
    unfold disconnect
    split
    · rw [hws]
    · exact hws
  | opSend n d =>
    show (send s n d).state.ws = none
    rw [send_of_not_connected s n d hcf]
    exact hws
  | opReceive n p => exact hws
  | evOpen c => exact absurd rfl (hno c)
  | evError c =>
    simp only [step]
    cases hg : s.channels.get? c with
    | none => exact hws
    | some ch =>
      by_cases hpre : ch.preErrorHandler
      · simp only [hpre, if_true]
        show (connectionErrorHandlerRun s c).1.ws = none
        unfold connectionErrorHandlerRun
        rw [rejectPromise_ws, disconnect_mismatch s c (ws_none_ne_some s c hws)]
        exact hws
      · by_cases hpost : ch.postHandlers
        · simp only [hpre, hpost, if_false, if_true]
          show (postErrorHandlerRun s c).1.ws = none
          unfold postErrorHandlerRun
          rw [disconnect_mismatch s c (ws_none_ne_some s c hws)]
          exact hws
        · simp only [hpre, hpost, if_false]
          exact hws
  | evClose c =>
    simp only [step]
    cases hg : s.channels.get? c with
    | none => exact hws
    | some ch =>
      by_cases hpost : ch.postHandlers
      · simp only [hpost, if_true]
        show (closeHandlerRun s c).1.ws = none
        unfold closeHandlerRun
        rw [disconnect_mismatch s c (ws_none_ne_some s c hws)]
        exact hws
      · simp only [hpost, if_false]
        exact hws
  | evMessage c msg =>
    simp only [step]
    cases hg : s.channels.get? c with
    | none => exact hws
    | some ch =>
      by_cases hm : ch.msgHandler
      · simp only [hm, if_true]
        exact hws
      · simp only [hm, if_false]
        exact hws

/-- Helper: a run containing no `open` callback keeps a disconnected
client disconnected. -/
theorem runFrom_ws_none (acts : List Act) (s : ClientState)
    (hws : s.ws = none) (hno : ∀ c, Act.evOpen c ∉ acts) :
    (runFrom s acts).ws = none := by
  induction acts generalizing s with
  | nil => exact hws
  | cons a rest ih =>
    refine ih (step s a).1 (step_ws_none s a hws ?_) ?_
    · intro c hc
      exact hno c (by rw [hc]; exact List.mem_cons_self _ _)
    · intro c hc
      exact hno c (List.mem_cons_of_mem _ hc)

/-- C1 counterexample: two `connect()` calls with no intervening
`disconnect()`, the second issued before the first channel reports open.
Neither call throws (`isConnected()` is still false, since `this.ws` is
only assigned in the `open` handler), and a second channel is created. -/
theorem connect_pending_second_connect_creates_channel :
    (connect (mkClient false)).result = Except.ok 0 ∧
    (connect (connect (mkClient false)).state).result = Except.ok 1 ∧
    (connect (connect (mkClient false)).state).state.channels.length = 2 :=
  ⟨rfl, rfl, rfl⟩

/-- C1 (amended): once a `connect()` has completed (the client owns a
channel, `isConnected()` true), a further `connect()` throws `Already
connected` and changes nothing — in particular no second channel is
created.  While a first `connect()` is still pending (before its `open`),
a second call is not detected, as the counterexample shows. -/
theorem connect_already_connected_rejects (s : ClientState)
    (h : isConnected s = true) :
    connect s = ⟨Except.error ApiError.alreadyConnected, s, []⟩ := by
  simp [connect, h]

/-- C1 witness: on a client whose first `connect()` has opened, a second
`connect()` throws `Already connected` and creates no channel. -/
theorem connect_already_connected_rejects_witness :
    isConnected (run [Act.opConnect, Act.evOpen 0]) = true ∧
    connect (run [Act.opConnect, Act.evOpen 0]) =
      ⟨Except.error ApiError.alreadyConnected,
        run [Act.opConnect, Act.evOpen 0], []⟩ :=
  ⟨rfl, connect_already_connected_rejects _ rfl⟩

/-- C2: whenever `isConnected()` is false, `send(eventName, data)` throws
`RealtimeAPI is not connected` with the state untouched (no envelope is
built: `idCounter` is unchanged) and no effects (nothing dispatched,
nothing written); a fresh client is in that situation, and so is any client
after a matching `disconnect`. -/
theorem send_disconnected_rejects :
    (∀ s n d, isConnected s = false →
      send s n d = ⟨.error .notConnected, s, []⟩) ∧
    (∀ dbg, isConnected (mkClient dbg) = false) ∧
    (∀ s h, (h = none ∨ s.ws = h) →
      isConnected (disconnect s h).state = false) := by
  refine ⟨send_of_not_connected, fun _ => rfl, fun s h hm => ?_⟩
  unfold disconnect
  rw [if_pos hm]
  cases s.ws <;> rfl

/-- C2 witness: a fresh client rejects `send` with `NotConnected`. -/
theorem send_disconnected_rejects_witness :
    send (mkClient false) "ping" (.vobj [("n", .vnum 1)]) =
      ⟨.error .notConnected, mkClient false, []⟩ :=
  send_disconnected_rejects.1 _ _ _ rfl

/-- Helper: `markClosed` sets exactly the `closed` flag of the channel. -/
theorem markClosed_get (s : ClientState) (c : Nat) (ch : ChannelState)
    (hch : s.channels.get? c = some ch) :
    (markClosed s c).channels.get? c = some { ch with closed := true } := by
  unfold markClosed setChannel
  rw [hch]
  obtain ⟨hlt, -⟩ := List.get?_eq_some.mp hch
  exact List.get?_set_eq_of_lt _ hlt

/-- C6: `disconnect(h)` with no handle, or with the currently owned handle,
closes the owned channel (a `ws.close()` effect when one is owned), clears
`this.ws` (so `isConnected()` is false) and returns `true`; with any other
handle it is a silent no-op: nothing changes, nothing is emitted, and the
call returns `undefined` rather than an error. -/
theorem disconnect_matching_or_stale (s : ClientState) (h : Option Nat) :
    ((h = none ∨ s.ws = h) →
      (disconnect s h).result = .ok (some true) ∧
      (disconnect s h).state.ws = none ∧
      isConnected (disconnect s h).state = false ∧
      (∀ c, s.ws = some c → (disconnect s h).effects = [.closeEff c]) ∧
      (∀ c ch, s.ws = some c → channelAt s c = some ch →
        channelAt (disconnect s h).state c = some { ch with closed := true })) ∧
    (¬(h = none ∨ s.ws = h) → disconnect s h = ⟨.ok none, s, []⟩) := by
  constructor
  · intro hm
    unfold disconnect
    rw [if_pos hm]
    cases hws : s.ws with
    | none =>
      refine ⟨rfl, rfl, rfl, ?_, ?_⟩
      · intro c hc
        cases hc
      · intro c ch hc _
        cases hc
    | some c0 =>
      refine ⟨rfl, rfl, rfl, ?_, ?_⟩
      · intro c hc
        cases hc
        rfl
      · intro c ch hc hch
        cases hc
        exact markClosed_get s c0 ch hch
  · intro hm
    unfold disconnect
    rw [if_neg hm]

/-- C6 witness: disconnecting a connected client with no handle closes the
owned channel and leaves the client disconnected; disconnecting it again
with a stale handle is a no-op. -/
theorem disconnect_matching_or_stale_witness :
    (disconnect (run [Act.opConnect, Act.evOpen 0]) none).result =
        .ok (some true) ∧
    isConnected (disconnect (run [Act.opConnect, Act.evOpen 0]) none).state =
        false ∧
    disconnect (run [Act.opConnect, Act.evOpen 0]) (some 7) =
      ⟨.ok none, run [Act.opConnect, Act.evOpen 0], []⟩ :=
  ⟨((disconnect_matching_or_stale _ none).1 (Or.inl rfl)).1,
   ((disconnect_matching_or_stale _ none).1 (Or.inl rfl)).2.2.1,
   (disconnect_matching_or_stale _ (some 7)).2 (by decide)⟩

/-- C8: `receive(eventName, payload)` returns `true`, leaves the state
unchanged, and performs exactly two dispatcher calls, in order
`server.<eventName>` then `server.*`, each carrying the payload
unmodified. -/
theorem receive_dispatches_two (s : ClientState) (n : String) (p : Value) :
    (receive s n p).result = .ok true ∧
    (receive s n p).state = s ∧
    (receive s n p).effects.filter (fun e => isDispatchEff e) =
      [.dispatchEff ("server." ++ n) p, .dispatchEff "server.*" p] := by
  refine ⟨rfl, rfl, ?_⟩
  by_cases hd : s.debug <;>
    simp [receive, logEffects, hd, isDispatchEff]

/-- Is a value the absent/`undefined` argument? -/
def isAbsentArg : Value → Bool
  | .vundefined => true
  | _ => false

/-- C5 counterexample: while connected, `send("ping", 0)` succeeds although
`0` is neither a mapping nor an omitted argument — `data = data || {}`
silently replaces every falsy value, not just an absent one, so a falsy
non-mapping is never rejected. -/
theorem send_falsy_nonmapping_accepted :
    jsTypeofIsObject (Value.vnum 0) = false ∧
    isAbsentArg (Value.vnum 0) = false ∧
    (send (run [Act.opConnect, Act.evOpen 0]) "ping" (Value.vnum 0)).result =
      Except.ok true :=
  ⟨rfl, rfl, rfl⟩

/-- C5 (amended): while connected, `send(eventName, data)` throws `data
must be an object` exactly when `data` is truthy and not a mapping; on that
failure nothing is dispatched or written and the state is untouched.  Any
falsy `data` — an omitted argument, but also `null`, `false`, `0` or `""` —
is replaced by the empty mapping rather than rejected. -/
theorem send_invalid_payload_iff (s : ClientState) (n : String) (d : Value)
    (hc : isConnected s = true) :
    ((send s n d).result = .error .invalidPayload ↔
      (jsTruthy d = true ∧ jsTypeofIsObject d = false)) ∧
    ((send s n d).result = .error .invalidPayload →
      send s n d = ⟨.error .invalidPayload, s, []⟩) ∧
    (jsTruthy d = false → send s n d = send s n (.vobj [])) := by
  cases d with
  | vundefined =>
    simp [send, hc, jsTruthy, jsTypeofIsObject]
  | vnull =>
    simp [send, hc, jsTruthy, jsTypeofIsObject]
  | vbool b =>
    cases b <;> simp [send, hc, jsTruthy, jsTypeofIsObject]
  | vnum k =>
    by_cases hk : k = 0 <;>
      simp [send, hc, jsTruthy, jsTypeofIsObject, hk]
  | vstr t =>
    by_cases ht : t = "" <;>
      simp [send, hc, jsTruthy, jsTypeofIsObject, ht]
  | vobj fs =>
    simp [send, hc, jsTruthy, jsTypeofIsObject]

/-- C5 witness: on a connected client, `send` with the truthy non-mapping
`1` throws `data must be an object` without touching anything. -/
theorem send_invalid_payload_iff_witness :
    (send (run [Act.opConnect, Act.evOpen 0]) "ping" (Value.vnum 1)).result =
      .error .invalidPayload :=
  ((send_invalid_payload_iff (run [Act.opConnect, Act.evOpen 0]) "ping"
      (Value.vnum 1) rfl).1).mpr ⟨rfl, rfl⟩

/-- In an effect list, every dispatcher call sits strictly before every
channel write. -/
def dispatchesBeforeWrites (effs : List Eff) : Prop :=
  ∀ i j, i < effs.length → j < effs.length →
    isDispatchEff (effs.getD i .logEff) = true →
    isWriteEff (effs.getD j .logEff) = true → i < j

/-- Helper: the dispatch-before-write order for the effect shape of a
debug-mode `send`. -/
theorem dbw_shape4 (n1 n2 : String) (p1 p2 : Value) (t : String) :
    dispatchesBeforeWrites
      [.dispatchEff n1 p1, .dispatchEff n2 p2, .logEff, .writeEff t] := by
  intro i j hi hj hd hw
  simp only [List.length_cons, List.length_nil] at hi hj
  interval_cases i <;> interval_cases j <;>
    simp_all [isDispatchEff, isWriteEff, List.getD]

/-- Helper: the dispatch-before-write order for the effect shape of a
non-debug `send`. -/
theorem dbw_shape3 (n1 n2 : String) (p1 p2 : Value) (t : String) :
    dispatchesBeforeWrites
      [.dispatchEff n1 p1, .dispatchEff n2 p2, .writeEff t] := by
  intro i j hi hj hd hw
  simp only [List.length_cons, List.length_nil] at hi hj
  interval_cases i <;> interval_cases j <;>
    simp_all [isDispatchEff, isWriteEff, List.getD]

/-- C4: in every `send` call that succeeds, both local dispatches
(`client.<eventName>` then `client.*`) appear strictly before the channel
write in the call's effect sequence, so local listeners observe the
outbound event even if the write then fails. -/
theorem send_dispatch_before_write (s : ClientState) (n : String) (d : Value)
    (hok : (send s n d).result = .ok true) :
    dispatchesBeforeWrites (send s n d).effects := by
  unfold send at hok ⊢
  by_cases hc : isConnected s = true
  · rw [if_neg (by simp [hc])] at hok ⊢
    by_cases ht : jsTypeofIsObject (if jsTruthy d then d else Value.vobj []) = true
    · rw [if_neg (by simp [ht])] at hok ⊢
      cases hdbg : s.debug <;>
        simp only [logEffects, hdbg, if_true, if_false] <;>
        first
          | exact dbw_shape3 _ _ _ _ _
          | exact dbw_shape4 _ _ _ _ _
    · rw [if_pos (by simp [ht])] at hok
      cases hok
  · rw [if_pos (by simp [hc])] at hok
    cases hok

/-- Helper: assigning key `k` makes lookup of `k` return the new value. -/
theorem fieldsGet_objSet_same (fs : List (String × Value)) (k : String)
    (v : Value) : fieldsGet (objSet fs k v) k = some v := by
  unfold objSet fieldsGet
  by_cases ha : fs.any (fun p => p.1 = k) = true
  · rw [if_pos ha]
    induction fs with
    | nil => simp at ha
    | cons p rest ih =>
      by_cases hp : p.1 = k
      · rw [List.map_cons, if_pos hp,
          List.find?_cons_of_pos _ (by simp)]
        rfl
      · have harest : rest.any (fun q => q.1 = k) = true := by
          simpa [List.any_cons, hp] using ha
        rw [List.map_cons, if_neg hp,
          List.find?_cons_of_neg _ (by simpa using hp)]
        exact ih harest
  · rw [if_neg ha]
    have hnone : fs.find? (fun p => p.1 = k) = none := by
      rw [List.find?_eq_none]
      intro x hx hpx
      exact ha (List.any_eq_true.mpr ⟨x, hx, hpx⟩)
    rw [List.find?_append, hnone, Option.none_or,
      List.find?_cons_of_pos _ (by simp)]
    rfl

/-- Helper: assigning key `k` leaves lookups of other keys unchanged. -/
theorem fieldsGet_objSet_other (fs : List (String × Value)) (k k' : String)
    (v : Value) (hne : k' ≠ k) :
    fieldsGet (objSet fs k v) k' = fieldsGet fs k' := by
  unfold objSet fieldsGet
  by_cases ha : fs.any (fun p => p.1 = k) = true
  · rw [if_pos ha]
    clear ha
    induction fs with
    | nil => rfl
    | cons p rest ih =>
      by_cases hp : p.1 = k
      · rw [List.map_cons, if_pos hp,
          List.find?_cons_of_neg _ (by simpa using Ne.symm hne),
          List.find?_cons_of_neg _ (by simp [hp, Ne.symm hne])]
        exact ih
      · rw [List.map_cons, if_neg hp]
        by_cases hp' : p.1 = k'
        · rw [List.find?_cons_of_pos _ (by simpa using hp'),
            List.find?_cons_of_pos _ (by simpa using hp')]
        · rw [List.find?_cons_of_neg _ (by simpa using hp'),
            List.find?_cons_of_neg _ (by simpa using hp')]
          exact ih
  · rw [if_neg ha]
    rw [List.find?_append,
      List.find?_cons_of_neg _ (by simpa using Ne.symm hne)]
    simp

/-- Helper: a spread key absent from the extras looks up in the base. -/
theorem fieldsGet_spread_not_mem (base extra : List (String × Value))
    (k : String) (hk : k ∉ extra.map Prod.fst) :
    fieldsGet (spreadFields base extra) k = fieldsGet base k := by
  induction extra generalizing base with
  | nil => rfl
  | cons kv rest ih =>
    have hk1 : k ≠ kv.1 := by
      intro h
      exact hk (by simp [h])
    have hkrest : k ∉ rest.map Prod.fst := fun h => hk (by simp [h])
    show fieldsGet (spreadFields (objSet base kv.1 kv.2) rest) k = _
    rw [ih _ hkrest, fieldsGet_objSet_other _ _ _ _ hk1]

/-- Helper: with duplicate-free extras (JS object keys are unique), every
extra pair survives the spread unchanged. -/
theorem fieldsGet_spread_mem (base extra : List (String × Value))
    (k : String) (v : Value) (hmem : (k, v) ∈ extra)
    (hnodup : (extra.map Prod.fst).Nodup) :
    fieldsGet (spreadFields base extra) k = some v := by
  induction extra generalizing base with
  | nil => cases hmem
  | cons kv rest ih =>
    have hnodup' : (rest.map Prod.fst).Nodup :=
      (List.nodup_cons.mp (by simpa using hnodup)).2
    cases List.mem_cons.mp hmem with
    | inl h =>
      cases h
      have hnotin : k ∉ rest.map Prod.fst :=
        (List.nodup_cons.mp (by simpa using hnodup)).1
      show fieldsGet (spreadFields (objSet base k v) rest) k = some v
      rw [fieldsGet_spread_not_mem _ _ _ hnotin, fieldsGet_objSet_same]
    | inr h =>
      show fieldsGet (spreadFields (objSet base kv.1 kv.2) rest) k = some v
      exact ih (objSet base kv.1 kv.2) h hnodup'

/-- C3 counterexample: while connected, `send("ping", {type: "other"})`
builds and dispatches an envelope whose `type` field is `"other"`, not the
event name `"ping"` — the spread `{event_id, type: eventName, ...data}`
lets caller keys override the generated fields. -/
theorem send_type_key_overrides_envelope_type :
    (send (run [Act.opConnect, Act.evOpen 0]) "ping"
        (Value.vobj [("type", Value.vstr "other")])).effects.head? =
      some (.dispatchEff "client.ping"
        (.vobj [("event_id", .vstr "evt_0"), ("type", .vstr "other")])) ∧
    jsGet (.vobj [("event_id", .vstr "evt_0"), ("type", .vstr "other")])
        "type" = .vstr "other" ∧
    (("other" : String) == "ping") = false :=
  ⟨rfl, rfl, rfl⟩

/-- C3 (amended): while connected, and provided the caller's mapping uses
neither `event_id` nor `type` as a key (keys of a JS object are unique),
`send(eventName, data)` succeeds, consumes one fresh id, and the envelope
it dispatches (twice) and writes carries `event_id = generateId("evt_")`
(a string with prefix `evt_`), `type = eventName`, and every caller pair
unmodified.  A caller-supplied `event_id` or `type` key would instead
override the generated field, as the counterexample shows. -/
theorem send_envelope_fields (s : ClientState) (n : String)
    (fs : List (String × Value))
    (hc : isConnected s = true)
    (hnodup : (fs.map Prod.fst).Nodup)
    (hid : "event_id" ∉ fs.map Prod.fst)
    (hty : "type" ∉ fs.map Prod.fst) :
    (send s n (.vobj fs)).result = .ok true ∧
    (send s n (.vobj fs)).state.idCounter = s.idCounter + 1 ∧
    ∃ env,
      (send s n (.vobj fs)).effects =
        [.dispatchEff ("client." ++ n) env, .dispatchEff "client.*" env] ++
          logEffects s ++ [.writeEff (serializeTop env)] ∧
      jsGet env "event_id" = .vstr (generateId "evt_" s.idCounter) ∧
      (∃ tail, generateId "evt_" s.idCounter = "evt_" ++ tail) ∧
      jsGet env "type" = .vstr n ∧
      (∀ kv ∈ fs, jsGet env kv.1 = kv.2) := by
  have hsend : send s n (.vobj fs) =
      ⟨.ok true, { s with idCounter := s.idCounter + 1 },
        [.dispatchEff ("client." ++ n)
            (.vobj (spreadFields
              [("event_id", .vstr (generateId "evt_" s.idCounter)),
               ("type", .vstr n)] fs)),
         .dispatchEff "client.*"
            (.vobj (spreadFields
              [("event_id", .vstr (generateId "evt_" s.idCounter)),
               ("type", .vstr n)] fs))] ++
          logEffects s ++
          [.writeEff (serializeTop
            (.vobj (spreadFields
              [("event_id", .vstr (generateId "evt_" s.idCounter)),
               ("type", .vstr n)] fs)))]⟩ := by
    unfold send
    rw [if_neg (by simp [hc])]
    rfl
  rw [hsend]
  refine ⟨rfl, rfl,
    ⟨.vobj (spreadFields
      [("event_id", .vstr (generateId "evt_" s.idCounter)),
       ("type", .vstr n)] fs), rfl, ?_, ⟨toString s.idCounter, rfl⟩, ?_, ?_⟩⟩
  · rw [jsGet_vobj, fieldsGet_spread_not_mem _ _ _ hid]
    rfl
  · rw [jsGet_vobj, fieldsGet_spread_not_mem _ _ _ hty]
    rfl
  · intro kv hkv
    rw [jsGet_vobj, fieldsGet_spread_mem _ _ kv.1 kv.2 (by simpa using hkv) hnodup]
    rfl

/-- C3 witness: a connected `send("ping", {n: 1})` succeeds and consumes
one generated id. -/
theorem send_envelope_fields_witness :
    (send (run [Act.opConnect, Act.evOpen 0]) "ping"
        (Value.vobj [("n", Value.vnum 1)])).result = .ok true ∧
    (send (run [Act.opConnect, Act.evOpen 0]) "ping"
        (Value.vobj [("n", Value.vnum 1)])).state.idCounter =
      (run [Act.opConnect, Act.evOpen 0]).idCounter + 1 :=
  ⟨(send_envelope_fields (run [Act.opConnect, Act.evOpen 0]) "ping"
      [("n", Value.vnum 1)] rfl (by simp) (by simp) (by simp)).1,
   (send_envelope_fields (run [Act.opConnect, Act.evOpen 0]) "ping"
      [("n", Value.vnum 1)] rfl (by simp) (by simp) (by simp)).2.1⟩

/-- Helper: a pre-open `error` callback from a channel that is not the
owned one leaves `this.ws` and the channel table unchanged (its only state
effect is rejecting that attempt's own promise). -/
theorem connectionErrorHandlerRun_stale (s : ClientState) (c : Nat)
    (hstale : s.ws ≠ some c) :
    (connectionErrorHandlerRun s c).1.ws = s.ws ∧
    (connectionErrorHandlerRun s c).1.channels = s.channels := by
  unfold connectionErrorHandlerRun
  rw [disconnect_mismatch s c hstale]
  exact ⟨rejectPromise_ws s c, rejectPromise_channels s c⟩

/-- Helper: a post-open `error` callback from a non-owned channel does not
change the client state at all (it still dispatches `close`). -/
theorem postErrorHandlerRun_stale (s : ClientState) (c : Nat)
    (hstale : s.ws ≠ some c) : (postErrorHandlerRun s c).1 = s := by
  unfold postErrorHandlerRun
  rw [disconnect_mismatch s c hstale]

/-- Helper: a `close` callback from a non-owned channel does not change the
client state at all (it still dispatches `close`). -/
theorem closeHandlerRun_stale (s : ClientState) (c : Nat)
    (hstale : s.ws ≠ some c) : (closeHandlerRun s c).1 = s := by
  unfold closeHandlerRun
  rw [disconnect_mismatch s c hstale]

/-- C7: once `connect()` has completed (the client owns channel `c`, whose
`connectionErrorHandler` was removed and post-open handlers attached), a
channel `error` callback performs exactly one dispatcher call — `close`
with payload `{error: true}` — does not touch any connect promise, leaves
the client disconnected, and every subsequent `send` throws `RealtimeAPI
is not connected` as long as no later `connect()` reaches its `open`. -/
theorem post_open_error_single_close_dispatch (s : ClientState) (c : Nat)
    (ch : ChannelState) (hws : s.ws = some c)
    (hch : s.channels.get? c = some ch)
    (hpre : ch.preErrorHandler = false) (hpost : ch.postHandlers = true) :
    (step s (.evError c)).2.filter (fun e => isDispatchEff e) =
      [.dispatchEff "close" (.vobj [("error", .vbool true)])] ∧
    (step s (.evError c)).1.promises = s.promises ∧
    (step s (.evError c)).1.ws = none ∧
    (∀ acts, (∀ c', Act.evOpen c' ∉ acts) → ∀ n d,
      (send (runFrom (step s (.evError c)).1 acts) n d).result =
        .error .notConnected) := by
  have hdis : disconnect s (some c) =
      ⟨.ok (some true),
        { setChannel s c { ch with closed := true } with ws := none },
        [.closeEff c]⟩ := by
    unfold disconnect
    rw [if_pos (Or.inr hws)]
    simp only [hws]
    unfold markClosed
    rw [hch]
  have h1 : step s (.evError c) = postErrorHandlerRun s c := by
    simp only [step, hch]
    rw [if_neg (by simp [hpre]), if_pos hpost]
  rw [h1]
  have hwsn : (postErrorHandlerRun s c).1.ws = none := by
    unfold postErrorHandlerRun
    rw [hdis]
  refine ⟨?_, ?_, hwsn, ?_⟩
  · unfold postErrorHandlerRun
    rw [hdis]
    cases hdbg : s.debug <;>
      simp [logEffects, setChannel, hdbg, isDispatchEff]
  · unfold postErrorHandlerRun
    rw [hdis]
    simp [setChannel]
  · intro acts hno n d
    rw [send_of_not_connected _ n d
      (by simp [isConnected, runFrom_ws_none acts _ hwsn hno])]

/-- C7 witness: after `connect` and `open`, an `error` callback on the
owned channel dispatches exactly one `close {error: true}` and leaves the
client disconnected. -/
theorem post_open_error_single_close_dispatch_witness :
    (step (run [Act.opConnect, Act.evOpen 0]) (.evError 0)).2.filter
        (fun e => isDispatchEff e) =
      [.dispatchEff "close" (.vobj [("error", .vbool true)])] ∧
    (step (run [Act.opConnect, Act.evOpen 0]) (.evError 0)).1.ws = none :=
  ⟨(post_open_error_single_close_dispatch (run [Act.opConnect, Act.evOpen 0])
      0 ⟨true, false, false, true, false⟩ rfl rfl rfl rfl).1,
   (post_open_error_single_close_dispatch (run [Act.opConnect, Act.evOpen 0])
      0 ⟨true, false, false, true, false⟩ rfl rfl rfl rfl).2.2.1⟩

/-- C9 counterexample: two overlapping `connect()` calls create channels 0
and 1; channel 1 opens first and is owned; then channel 0's late `open`
callback — a lifecycle callback of a channel that is not the owned one —
overwrites `this.ws` with no identity check, leaving channel 1 unowned and
never closed. -/
theorem late_open_overrides_owned_channel :
    (run [Act.opConnect, Act.opConnect, Act.evOpen 1]).ws = some 1 ∧
    (run [Act.opConnect, Act.opConnect, Act.evOpen 1, Act.evOpen 0]).ws =
      some 0 ∧
    ((run [Act.opConnect, Act.opConnect, Act.evOpen 1,
        Act.evOpen 0]).channels.get? 1).map (fun ch => ch.closed) =
      some false :=
  ⟨rfl, rfl, rfl⟩

/-- C9 (amended): `this.ws` holds at most one channel handle, and the
identity check inside `disconnect` makes the teardown callbacks safe: an
`error` or `close` callback from a channel that is not the currently owned
one never changes `this.ws` or any channel's state.  The `open` callback,
however, assigns `this.ws` unconditionally, so a late `open` from a
superseded connect attempt replaces the owned channel (see the
counterexample). -/
theorem stale_teardown_callback_no_mutation (s : ClientState) (c : Nat)
    (hstale : s.ws ≠ some c) :
    (step s (.evError c)).1.ws = s.ws ∧
    (step s (.evError c)).1.channels = s.channels ∧
    (step s (.evClose c)).1.ws = s.ws ∧
    (step s (.evClose c)).1.channels = s.channels := by
  have herr : (step s (.evError c)).1.ws = s.ws ∧
      (step s (.evError c)).1.channels = s.channels := by
    simp only [step]
    cases hg : s.channels.get? c with
    | none => exact ⟨rfl, rfl⟩
    | some ch =>
      dsimp only
      by_cases hpre : ch.preErrorHandler = true
      · rw [if_pos hpre]
        exact connectionErrorHandlerRun_stale s c hstale
      · rw [if_neg hpre]
        by_cases hpost : ch.postHandlers = true
        · rw [if_pos hpost, postErrorHandlerRun_stale s c hstale]
          exact ⟨rfl, rfl⟩
        · rw [if_neg hpost]
          exact ⟨rfl, rfl⟩
  have hcls : (step s (.evClose c)).1.ws = s.ws ∧
      (step s (.evClose c)).1.channels = s.channels := by
    simp only [step]
    cases hg : s.channels.get? c with
    | none => exact ⟨rfl, rfl⟩
    | some ch =>
      dsimp only
      by_cases hpost : ch.postHandlers = true
      · rw [if_pos hpost, closeHandlerRun_stale s c hstale]
        exact ⟨rfl, rfl⟩
      · rw [if_neg hpost]
        exact ⟨rfl, rfl⟩
  exact ⟨herr.1, herr.2, hcls.1, hcls.2⟩

/-- C9 witness: with channel 1 owned, `error` and `close` callbacks from
the superseded channel 0 leave the owned handle and the channel table
unchanged. -/
theorem stale_teardown_callback_no_mutation_witness :
    (step (run [Act.opConnect, Act.opConnect, Act.evOpen 1])
        (.evError 0)).1.ws =
      (run [Act.opConnect, Act.opConnect, Act.evOpen 1]).ws ∧
    (step (run [Act.opConnect, Act.opConnect, Act.evOpen 1])
        (.evClose 0)).1.channels =
      (run [Act.opConnect, Act.opConnect, Act.evOpen 1]).channels :=
  ⟨(stale_teardown_callback_no_mutation
      (run [Act.opConnect, Act.opConnect, Act.evOpen 1]) 0 (by decide)).1,
   (stale_teardown_callback_no_mutation
      (run [Act.opConnect, Act.opConnect, Act.evOpen 1]) 0 (by decide)).2.2.2⟩

/-- The connection-URL template both copies instantiate:
`wss://<resource>.openai.azure.com/openai/realtime?api-version=2024-10-01-preview&deployment=<deployment>&api-key=<key>`. -/
def mkFullUrl (resource deployment key : String) : String :=
  "wss://" ++ resource ++ ".openai.azure.com/openai/realtime" ++
    "?api-version=2024-10-01-preview&deployment=" ++ deployment ++
    "&api-key=" ++ key

namespace ApiJs

/-- From `src/lib/api.js`: `this.resourceName`. -/
def resourceName : String := "whywa-m1vsn982-eastus2"

/-- From `src/lib/api.js`: `this.deploymentName`. -/
def deploymentName : String := "gpt-4o-realtime-preview"

/-- From `src/lib/api.js`: `this.url`. -/
def url : String :=
  "wss://" ++ resourceName ++ ".openai.azure.com/openai/realtime"

/-- From `src/lib/api.js`: the api-key query constant inside `connect()`. -/
def apiKey : String := "714bf367d68b4b52a00ff66e42c1cc22"

/-- From `src/lib/api.js`: `fullUrl` as assembled inside `connect()`. -/
def fullUrl : String :=
  url ++ "?api-version=2024-10-01-preview&deployment=" ++ deploymentName ++
    "&api-key=" ++ apiKey

end ApiJs

namespace Part000

/-- From `src/unnamed/part_000`: `this.resourceName` (the uncommented one). -/
def resourceName : String := "agawal-resource"

/-- From `src/unnamed/part_000`: `this.deploymentName` (the uncommented one). -/
def deploymentName : String := "gpt-4o-mini-realtime-preview"

/-- From `src/unnamed/part_000`: `this.url`. -/
def url : String :=
  "wss://" ++ resourceName ++ ".openai.azure.com/openai/realtime"

/-- From `src/unnamed/part_000`: the api-key query constant inside `connect()`
(the uncommented one). -/
def apiKey : String :=
  "3QLKDZPDjoPQfXTBg8ScfYzm3dLdpGvO6E8agnnr8ORNqSCAKAmzJQQJ99BHACHYHv6XJ3w3AAAAACOGSaRH"

/-- From `src/unnamed/part_000`: `fullUrl` as assembled inside `connect()`. -/
def fullUrl : String :=
  url ++ "?api-version=2024-10-01-preview&deployment=" ++ deploymentName ++
    "&api-key=" ++ apiKey

/-- From `src/unnamed/part_000`: `isConnected()`. -/
def isConnected (s : ClientState) : Bool :=
  s.ws.isSome

/-- From `src/unnamed/part_000`: `log(...args)` (console output when `debug`). -/
def logEffects (s : ClientState) : List Eff :=
  if s.debug then [Eff.logEff] else []

/-- From `src/unnamed/part_000`: `connect()`, synchronous part. -/
def connect (s : ClientState) : MRes Nat :=
  if isConnected s then
    ⟨.error .alreadyConnected, s, []⟩
  else
    ⟨.ok s.channels.length,
      { s with
        channels := s.channels ++ [freshChannel],
        promises := s.promises ++ [.pending] },
      []⟩

/-- From `src/unnamed/part_000`: `disconnect(ws?)`. -/
def disconnect (s : ClientState) (h : Option Nat) : MRes (Option Bool) :=
  if h = none ∨ s.ws = h then
    match s.ws with
    | some c => ⟨.ok (some true), { markClosed s c with ws := none }, [.closeEff c]⟩
    | none => ⟨.ok (some true), { s with ws := none }, []⟩
  else
    ⟨.ok none, s, []⟩

/-- From `src/unnamed/part_000`: `receive(eventName, event)`. -/
def receive (s : ClientState) (eventName : String) (event : Value) :
    MRes Bool :=
  ⟨.ok true, s,
    logEffects s ++
      [.dispatchEff ("server." ++ eventName) event,
       .dispatchEff "server.*" event]⟩

/-- From `src/unnamed/part_000`: `send(eventName, data)`. -/
def send (s : ClientState) (eventName : String) (data : Value) : MRes Bool :=
  if ¬ isConnected s then
    ⟨.error .notConnected, s, []⟩
  else
    let data1 := if jsTruthy data then data else .vobj []
    if ¬ jsTypeofIsObject data1 then
      ⟨.error .invalidPayload, s, []⟩
    else
      let event := Value.vobj (spreadFields
        [("event_id", .vstr (generateId "evt_" s.idCounter)),
         ("type", .vstr eventName)]
        (objFields data1))
      let s1 := { s with idCounter := s.idCounter + 1 }
      ⟨.ok true, s1,
        [.dispatchEff ("client." ++ eventName) event,
         .dispatchEff "client.*" event] ++
        logEffects s1 ++
        [.writeEff (serializeTop event)]⟩

/-- From `src/unnamed/part_000`: the `open` listener body wired by `connect()`. -/
def openHandlerRun (s : ClientState) (c : Nat) (ch : ChannelState) :
    ClientState × List Eff :=
  let s1 := setChannel s c
    { ch with preErrorHandler := false, openPending := false, postHandlers := true }
  let s2 := { s1 with ws := some c }
  (resolvePromise s2 c, logEffects s)

/-- From `src/unnamed/part_000`: the `connectionErrorHandler` body. -/
def connectionErrorHandlerRun (s : ClientState) (c : Nat) :
    ClientState × List Eff :=
  let d := disconnect s (some c)
  (rejectPromise d.state c, d.effects)

/-- From `src/unnamed/part_000`: the post-open `error` listener body. -/
def postErrorHandlerRun (s : ClientState) (c : Nat) :
    ClientState × List Eff :=
  let d := disconnect s (some c)
  (d.state,
    d.effects ++ logEffects d.state ++
      [.dispatchEff "close" (.vobj [("error", .vbool true)])])

/-- From `src/unnamed/part_000`: the post-open `close` listener body. -/
def closeHandlerRun (s : ClientState) (c : Nat) :
    ClientState × List Eff :=
  let d := disconnect s (some c)
  (d.state,
    d.effects ++ logEffects d.state ++
      [.dispatchEff "close" (.vobj [("error", .vbool false)])])

end Part000

/-- C10: the two `RealtimeAPI` copies are behaviorally equivalent: every
method and callback body agrees pointwise on every state and input; the
only difference lies in the connection-target constants — both `fullUrl`s
instantiate the same template, at different `resourceName`,
`deploymentName` and api-key values. -/
theorem part000_equivalence :
    (∀ s, Part000.isConnected s = isConnected s) ∧
    (∀ s, Part000.logEffects s = logEffects s) ∧
    (∀ s, Part000.connect s = connect s) ∧
    (∀ s h, Part000.disconnect s h = disconnect s h) ∧
    (∀ s n p, Part000.receive s n p = receive s n p) ∧
    (∀ s n d, Part000.send s n d = send s n d) ∧
    (∀ s c ch, Part000.openHandlerRun s c ch = openHandlerRun s c ch) ∧
    (∀ s c, Part000.connectionErrorHandlerRun s c =
      connectionErrorHandlerRun s c) ∧
    (∀ s c, Part000.postErrorHandlerRun s c = postErrorHandlerRun s c) ∧
    (∀ s c, Part000.closeHandlerRun s c = closeHandlerRun s c) ∧
    ApiJs.fullUrl =
      mkFullUrl ApiJs.resourceName ApiJs.deploymentName ApiJs.apiKey ∧
    Part000.fullUrl =
      mkFullUrl Part000.resourceName Part000.deploymentName Part000.apiKey ∧
    (ApiJs.resourceName == Part000.resourceName) = false ∧
    (ApiJs.deploymentName == Part000.deploymentName) = false ∧
    (ApiJs.apiKey == Part000.apiKey) = false := by
  refine ⟨fun s => rfl, fun s => rfl, fun s => rfl, fun s h => rfl,
    fun s n p => rfl, fun s n d => rfl, fun s c ch => rfl, fun s c => rfl,
    fun s c => rfl, fun s c => rfl, rfl, rfl, ?_, ?_, ?_⟩ <;> decide

/-- C4 witness: a concrete connected `send` succeeds and its dispatches all
precede its write. -/
theorem send_dispatch_before_write_witness :
    (send (run [Act.opConnect, Act.evOpen 0]) "ping"
        (Value.vobj [("n", Value.vnum 1)])).result = .ok true ∧
    dispatchesBeforeWrites
      (send (run [Act.opConnect, Act.evOpen 0]) "ping"
        (Value.vobj [("n", Value.vnum 1)])).effects :=
  ⟨rfl, send_dispatch_before_write (run [Act.opConnect, Act.evOpen 0]) "ping"
    (Value.vobj [("n", Value.vnum 1)]) rfl⟩
